import Mathlib

/-!
Verification development for the optical-disc ISO backup utility
(src/makeiso.py). The Python program is shallowly embedded: pure helpers
become Lean functions on Nat / Int / Rat, the dynamic JSON manifest becomes
an ordered key-value tree (JValue), the stateful backup run becomes a pure
function of an explicit environment that records what the collaborating
processes (diskutil, dd, isolyzer, the prompt) answered. Floats are
modelled as rationals; Python round uses round-half-even, which is
modelled exactly. The MD5 digest function itself is kept as a parameter:
every claim about digests only depends on which byte sequences are fed to
the two accumulators, never on MD5 internals.
-/

/-! ## JSON-like manifest values (json.dump with sort_keys=False keeps
insertion order, so an object is an ordered association list). -/

inductive JValue where
  | null : JValue
  | bool (b : Bool) : JValue
  | str (s : String) : JValue
  | num (q : ℚ) : JValue
  | arr (items : List JValue) : JValue
  | obj (fields : List (String × JValue)) : JValue

/-- Lookup of a key in an ordered field list (dict access). -/
def lookupField (key : String) : List (String × JValue) → Option JValue
  | [] => none
  | (k, v) :: rest => if k = key then some v else lookupField key rest

/-- Field lookup on an object value. -/
def JValue.getField (key : String) : JValue → Option JValue
  | JValue.obj fs => lookupField key fs
  | _ => none

/-- Apply a function to the value stored at one key of an object. -/
def JValue.mapField (key : String) (f : JValue → JValue) : JValue → JValue
  | JValue.obj fs =>
      JValue.obj (fs.map (fun kv => if kv.1 = key then (kv.1, f kv.2) else kv))
  | v => v

/-- Overwrite the value stored at one key of an object. -/
def JValue.setField (key : String) (v : JValue) : JValue → JValue :=
  JValue.mapField key (fun _ => v)

/-- Two-level lookup: section key, then field key. -/
def sectionField (sec k : String) (m : JValue) : Option JValue :=
  match m.getField sec with
  | some v => v.getField k
  | none => none

def optStrJ : Option String → JValue
  | some s => JValue.str s
  | none => JValue.null

def optBoolJ : Option Bool → JValue
  | some b => JValue.bool b
  | none => JValue.null

/-! ## Python numeric primitives on rationals -/

/-- Python int() on a nonnegative-or-negative float: truncation toward zero. -/
def pyTrunc (q : ℚ) : ℤ :=
  if q < 0 then -(Rat.floor (-q)) else Rat.floor q

/-- Python round-half-even to the nearest integer (the rounding used by
round() on floats). -/
def roundHalfEven (q : ℚ) : ℤ :=
  let f := Rat.floor q
  let r := q - (f : ℚ)
  if r < 1/2 then f
  else if 1/2 < r then f + 1
  else if f % 2 = 0 then f else f + 1

/-- Python round(q, 2). -/
def round2 (q : ℚ) : ℚ := ((roundHalfEven (q * 100) : ℤ) : ℚ) / 100

/-- Python float modulo: a - b * floor(a / b). -/
def qmod (a b : ℚ) : ℚ := a - b * ((Rat.floor (a / b) : ℤ) : ℚ)

def padZeros (len : Nat) (s : String) : String :=
  String.mk (List.replicate (len - s.length) (Char.ofNat 48)) ++ s

/-- Digit rendering of a scaled integer with prec decimal places. -/
def formatFixedInt (prec : Nat) (n : ℤ) : String :=
  (if n < 0 then "-" else "") ++ toString (n.natAbs / 10 ^ prec) ++ "."
    ++ padZeros prec (toString (n.natAbs % 10 ^ prec))

/-- Python format f with a fixed number of decimals, as in f-strings
with .1f or .2f (rounds half-even, prints exactly prec decimals). -/
def formatFixed (prec : Nat) (q : ℚ) : String :=
  formatFixedInt prec (roundHalfEven (q * ((10 : ℕ) ^ prec : ℕ)))

def formatFixed1 : ℚ → String := formatFixed 1
def formatFixed2 : ℚ → String := formatFixed 2

/-- Python str.strip / str.lower over ASCII characters (the prompt
answers and paths handled by the program are ASCII). -/
def pySpace (c : Char) : Bool :=
  c == ' ' || c == '\t' || c == '\n' || c == '\x0d' || c == '\x0b' || c == '\x0c'

def pyStrip (s : String) : String :=
  String.mk (((s.data.dropWhile pySpace).reverse.dropWhile pySpace).reverse)

def pyLowerChar (c : Char) : Char :=
  if 65 ≤ c.toNat ∧ c.toNat ≤ 90 then Char.ofNat (c.toNat + 32) else c

def pyLower (s : String) : String := String.mk (s.data.map pyLowerChar)

def pathNameGo : List Char → List Char → List Char
  | [], acc => acc.reverse
  | c :: cs, acc => if c = Char.ofNat 47 then pathNameGo cs [] else pathNameGo cs (c :: acc)

/-- Last path component, as pathlib .name (text after the last slash). -/
def pathName (p : String) : String := String.mk (pathNameGo p.data [])

/-! ## Data structures (makeiso.py lines 27-85) -/

/-- BackupConfig (makeiso.py lines 27-56). Paths are strings; output_dir
is kept without a trailing separator. -/
structure BackupConfig where
  disk_id : String
  volume_name : String
  filename : String
  operator : String
  output_dir : String
  dry_run : Bool := false
  no_verification : Bool := false
deriving DecidableEq

def BackupConfig.output_path (c : BackupConfig) : String :=
  c.output_dir ++ "/" ++ c.filename ++ ".iso"

def BackupConfig.log_path (c : BackupConfig) : String :=
  c.output_dir ++ "/" ++ c.filename ++ ".iso.log.txt"

def BackupConfig.manifest_path (c : BackupConfig) : String :=
  c.output_dir ++ "/" ++ c.filename ++ "_manifest.json"

def BackupConfig.tree_path (c : BackupConfig) : String :=
  c.output_dir ++ "/" ++ c.filename ++ "_tree.txt"

def BackupConfig.isolyzer_path (c : BackupConfig) : String :=
  c.output_dir ++ "/" ++ c.filename ++ "_isolyzer.xml"

/-- BackupResult (makeiso.py lines 58-85). md5 digests are optional
strings; times are rationals standing for the float seconds. -/
structure BackupResult where
  success : Bool
  iso_path : String
  disk_size : Nat
  md5_iso : Option String := none
  md5_raw : Option String := none
  creation_time : ℚ := 0
  verification_time : ℚ := 0
  error_message : Option String := none
deriving DecidableEq

/-- checksum_match property (lines 70-75). Python truthiness: the digests
take part only when they are present AND nonempty strings. -/
def BackupResult.checksum_match (r : BackupResult) : Option Bool :=
  match r.md5_iso, r.md5_raw with
  | some a, some b => if a ≠ "" ∧ b ≠ "" then some (a == b) else none
  | _, _ => none

/-- total_time property (lines 77-79). -/
def BackupResult.total_time (r : BackupResult) : ℚ :=
  r.creation_time + r.verification_time

/-- speed_mb_s method (lines 81-85): round((disk_size / duration) / 2^20, 2)
when duration is positive, else 0. -/
def BackupResult.speed_mb_s (r : BackupResult) (duration : ℚ) : ℚ :=
  if 0 < duration then round2 ((r.disk_size : ℚ) / duration / (1024 * 1024)) else 0

/-! ## Collaborator data (diskutil plist, isolyzer parse result, tree
summary, platform, wall clock). Each dynamic Python dict is modelled as a
record of optional fields: a field is none exactly when the key is absent,
and each dict.get(key, default) in the source becomes Option.getD. -/

/-- The diskutil info -plist dictionary, restricted to the keys the
program reads. -/
structure DiskInfo where
  TotalSize : Option Nat := none
  OpticalMediaType : Option String := none
  FilesystemName : Option String := none
  FilesystemType : Option String := none
  MediaName : Option String := none
  IORegistryEntryName : Option String := none
  OpticalDeviceType : Option String := none
  BusProtocol : Option String := none
  OpticalMediaErasable : Option Bool := none
  Writable : Option Bool := none
  VolumeSize : Option Nat := none
  VolumeAllocationBlockSize : Option Nat := none
  DeviceBlockSize : Option Nat := none
  MountPoint : Option String := none
  DeviceIdentifier : Option String := none
  DeviceNode : Option String := none
  Ejectable : Option Bool := none
  Removable : Option Bool := none
  Internal : Option Bool := none
  SMARTStatus : Option String := none
  Bootable : Option Bool := none
deriving DecidableEq

/-- One per-filesystem dictionary produced by _parse_isolyzer_xml
(lines 747-775), as read back by _extract_filesystem_info. -/
structure FsEntry where
  type : Option String := none
  volume_identifier : Option String := none
  volume_creation_date : Option String := none
  publisher : Option String := none
  data_preparer : Option String := none
  logical_block_size : Option ℤ := none
  volume_space_size : Option ℤ := none
  logical_volume_identifier : Option String := none
  implementation : Option String := none
deriving DecidableEq

/-- The iso_analysis dictionary as consumed by _create_manifest and
_analyze_iso_structure: either the parse result of _parse_isolyzer_xml
(lines 783-799), the dry-run record of line 438, or one of the error
records (lines 678, 807-809, 1183, 1187, 1190). toolName and toolVersion
stand for the nested lookups tool_info.get(name) and .get(version);
file_info and the raw tests sub-dictionary are omitted because no
manifest field reads them. -/
structure IsoAnalysis where
  skipped : Bool := false
  reason : Option String := none
  error : Option String := none
  error_type : Option String := none
  toolName : Option String := none
  toolVersion : Option String := none
  status_success : Option Bool := none
  valid_iso9660 : Option Bool := none
  has_udf : Option Bool := none
  size_as_expected : Option Bool := none
  size_expected : Option ℤ := none
  size_actual : Option ℤ := none
  size_difference_bytes : Option ℤ := none
  size_difference_sectors : Option ℚ := none
  contains_known_filesystem : Option Bool := none
  smaller_than_expected : Option Bool := none
  filesystems : List FsEntry := []
  warnings : List String := []
deriving DecidableEq

/-- The two formatted views of datetime.now() used inside
_create_manifest: strftime of percent-Y percent-m percent-dT... (compact)
and isoformat with seconds (iso). -/
structure ToolTimestamp where
  compact : String
  iso : String
deriving DecidableEq

/-- The platform module answers used by the manifest (lines 1010-1017). -/
structure PlatformInfo where
  system : String
  release : String
  version : String
  machine : String
  processor : String
  node : String
  python_version : String
deriving DecidableEq

/-- Outcome of _extract_tree_summary (lines 1203-1220): the parsed totals
line, an empty dictionary, or an error record. -/
inductive TreeSummary where
  | parsed (dirs files : Nat) (size : String)
  | empty
  | errored (msg : String)
deriving DecidableEq

/-- What invoking the isolyzer subprocess did (lines 1117-1190): a
successful run whose stdout parsed to the given analysis record, a
CalledProcessError, a FileNotFoundError, or another exception. -/
inductive IsolyzerRun where
  | ok (parsed : IsoAnalysis)
  | calledProcessError (msg : String)
  | fileNotFound
  | otherError (msg : String)
deriving DecidableEq

/-! ## Duration and byte formatting -/

/-- The minutes component of _format_duration (line 1196):
int(seconds) // 60 with Python floor division. -/
def durMinutes (seconds : ℚ) : ℤ := Int.fdiv (pyTrunc seconds) 60

/-- The rounded seconds component of _format_duration (line 1197):
round(seconds % 60, 2). -/
def durSeconds (seconds : ℚ) : ℚ := round2 (qmod seconds 60)

/-- _format_duration (makeiso.py lines 1192-1201). -/
def formatDuration (seconds : ℚ) : String :=
  if seconds = 0 then "0 seconds"
  else if 0 < durMinutes seconds then
    toString (durMinutes seconds) ++ " minutes, " ++ formatFixed2 (durSeconds seconds) ++ " seconds"
  else
    formatFixed2 (durSeconds seconds) ++ " seconds"

/-- Loop body of format_bytes (lines 827-833): try each unit, dividing by
1024, and fall through to TB. -/
def formatBytesGo : ℚ → List String → String
  | v, [] => formatFixed1 v ++ " TB"
  | v, u :: us => if v < 1024 then formatFixed1 v ++ " " ++ u else formatBytesGo (v / 1024) us

/-- format_bytes helper inside _create_manifest (lines 827-833). -/
def format_bytes (v : ℚ) : String := formatBytesGo v ["B", "KB", "MB", "GB"]

/-! ## The manifest (makeiso.py _create_manifest, lines 816-1076).
The single Python dict literal is split into one Lean definition per
top-level section, keeping every key, every value expression and the
insertion order. datetime.now() and uuid4() are passed in explicitly as
t and uuid. -/

/-- Python truthiness of an optional string (present and nonempty). -/
def pyTruthyStr : Option String → Bool
  | some s => !(s == "")
  | none => false

/-- backup_metadata section (lines 840-848). -/
def manifestBackupMetadata (cfg : BackupConfig) (t : ToolTimestamp) (uuid : String) : JValue :=
  JValue.obj [
    ("run_id", JValue.str (t.compact ++ "_" ++ cfg.operator ++ "_" ++ cfg.disk_id)),
    ("uuid", JValue.str uuid),
    ("tool_name", JValue.str "Optical Disc ISO Backup Utility"),
    ("tool_version", JValue.str "v14-streamlined"),
    ("created", JValue.str t.iso),
    ("operator", JValue.str cfg.operator),
    ("dry_run", JValue.bool cfg.dry_run)]

/-- backup_status section (lines 850-856). The errors entry keeps the
truthiness test of line 855: an empty error string also maps to null. -/
def manifestBackupStatus (cfg : BackupConfig) (r : BackupResult) (isoFileSize : Option Nat) : JValue :=
  JValue.obj [
    ("overall_status", JValue.str (if r.success then "success" else "failed")),
    ("iso_created", JValue.bool isoFileSize.isSome),
    ("verification_performed", JValue.bool (!cfg.no_verification && !cfg.dry_run)),
    ("verification_passed", match r.checksum_match with
      | some b => JValue.bool b
      | none => JValue.str "skipped"),
    ("errors", match r.error_message with
      | some s => if s = "" then JValue.null else JValue.str s
      | none => JValue.null)]

/-- source_disc section (lines 858-870). -/
def manifestSourceDisc (cfg : BackupConfig) (d : DiskInfo) : JValue :=
  JValue.obj [
    ("disk_identifier", JValue.str cfg.disk_id),
    ("device_path", JValue.str ("/dev/" ++ cfg.disk_id)),
    ("raw_device_path", JValue.str ("/dev/r" ++ cfg.disk_id)),
    ("volume_name", JValue.str cfg.volume_name),
    ("media_type", JValue.str (d.OpticalMediaType.getD "Unknown")),
    ("filesystem", JValue.str (d.FilesystemName.getD (d.FilesystemType.getD "Unknown"))),
    ("drive_model", JValue.str (d.MediaName.getD (d.IORegistryEntryName.getD "Unknown"))),
    ("drive_capabilities", JValue.str (d.OpticalDeviceType.getD "Unknown")),
    ("connection_type", JValue.str (d.BusProtocol.getD "Unknown")),
    ("erasable", JValue.bool (d.OpticalMediaErasable.getD false)),
    ("read_only", JValue.bool (!(d.Writable.getD true)))]

/-- volume_information section (lines 872-879). -/
def manifestVolumeInformation (cfg : BackupConfig) (r : BackupResult) (d : DiskInfo) : JValue :=
  JValue.obj [
    ("total_size_bytes", JValue.num (r.disk_size : ℚ)),
    ("total_size_formatted", JValue.str (format_bytes (r.disk_size : ℚ))),
    ("used_space_bytes", JValue.num ((d.VolumeSize.getD r.disk_size : ℕ) : ℚ)),
    ("used_space_formatted", JValue.str (format_bytes ((d.VolumeSize.getD r.disk_size : ℕ) : ℚ))),
    ("allocation_block_size", match d.VolumeAllocationBlockSize with
      | some n => JValue.num (n : ℚ)
      | none => match d.DeviceBlockSize with
        | some n => JValue.num (n : ℚ)
        | none => JValue.str "Unknown"),
    ("mount_point", JValue.str (d.MountPoint.getD ("/Volumes/" ++ cfg.volume_name)))]

/-- output_files section (lines 881-890). iso_file_size_formatted keeps
the truthiness test of line 884: a zero size also maps to null. -/
def manifestOutputFiles (cfg : BackupConfig) (r : BackupResult) (isoFileSize : Option Nat) : JValue :=
  JValue.obj [
    ("iso_filename", JValue.str (pathName r.iso_path)),
    ("iso_file_size_bytes", match isoFileSize with
      | some n => JValue.num (n : ℚ)
      | none => JValue.null),
    ("iso_file_size_formatted", match isoFileSize with
      | some n => if n = 0 then JValue.null else JValue.str (format_bytes (n : ℚ))
      | none => JValue.null),
    ("output_directory", JValue.str cfg.output_dir),
    ("log_filename", JValue.str (pathName cfg.log_path)),
    ("tree_filename", JValue.str (pathName cfg.tree_path)),
    ("isolyzer_filename", JValue.str (pathName cfg.isolyzer_path)),
    ("manifest_filename", JValue.str (pathName cfg.manifest_path))]

/-- The dictionaries returned by _extract_tree_summary (lines 1203-1220). -/
def treeSummaryJson : TreeSummary → JValue
  | TreeSummary.parsed dirs files size => JValue.obj [
      ("total_directories", JValue.num (dirs : ℚ)),
      ("total_files", JValue.num (files : ℚ)),
      ("reported_size", JValue.str size)]
  | TreeSummary.empty => JValue.obj []
  | TreeSummary.errored msg => JValue.obj [("error", JValue.str msg)]

/-- operations_performed section (lines 892-920). -/
def manifestOperations (cfg : BackupConfig) (r : BackupResult) (tree : TreeSummary) : JValue :=
  JValue.obj [
    ("tree_listing", JValue.obj [
      ("command", JValue.str ("tree -RapugD --si --du /Volumes/" ++ cfg.volume_name)),
      ("output_file", JValue.str (pathName cfg.tree_path)),
      ("summary", treeSummaryJson tree)]),
    ("disk_unmount", JValue.obj [
      ("command", JValue.str ("diskutil unmountDisk /dev/" ++ cfg.disk_id)),
      ("status", JValue.str (if !cfg.dry_run then "success" else "skipped"))]),
    ("iso_creation", JValue.obj [
      ("command", JValue.str ("dd if=/dev/r" ++ cfg.disk_id ++ " of=" ++ r.iso_path ++ " bs=4m")),
      ("method", JValue.str "parallel processing with simultaneous hash calculation"),
      ("block_size", JValue.str "4MB"),
      ("performed", JValue.bool (!cfg.dry_run))]),
    ("verification", JValue.obj [
      ("method", JValue.str "md5 hash comparison (ISO file vs raw device stream)"),
      ("algorithm", JValue.str "MD5"),
      ("algorithm_bits", JValue.num 128),
      ("performed", JValue.bool (!cfg.no_verification && !cfg.dry_run)),
      ("shell_equivalent", JValue.str ("[ \"$(md5 -q " ++ pathName r.iso_path
        ++ ")\" = \"$(dd if=/dev/r" ++ cfg.disk_id
        ++ " bs=4m 2>/dev/null | md5 -q)\" ] && echo \"MATCH\" || echo \"MISMATCH\""))]),
    ("finalization", JValue.obj [
      ("remount_command", JValue.str ("diskutil mount /dev/" ++ cfg.disk_id)),
      ("eject_command", JValue.str ("diskutil eject /dev/" ++ cfg.disk_id)),
      ("status", JValue.str (if !cfg.dry_run then "completed" else "skipped"))])]

/-- timing_performance section (lines 922-939). -/
def manifestTiming (r : BackupResult) : JValue :=
  JValue.obj [
    ("iso_creation", JValue.obj [
      ("duration_seconds", JValue.num r.creation_time),
      ("duration_formatted", JValue.str (formatDuration r.creation_time)),
      ("average_speed_mb_s", JValue.num (r.speed_mb_s r.creation_time)),
      ("average_speed_formatted", JValue.str (formatFixed2 (r.speed_mb_s r.creation_time) ++ " MB/s"))]),
    ("verification", JValue.obj [
      ("duration_seconds", JValue.num 0),
      ("duration_formatted", JValue.str "Performed during creation"),
      ("note", JValue.str "Verification performed during ISO creation (parallel processing)")]),
    ("total_operation", JValue.obj [
      ("duration_seconds", JValue.num r.creation_time),
      ("duration_formatted", JValue.str (formatDuration r.creation_time)),
      ("efficiency_note", JValue.str "~50% time savings vs sequential read/verify operations")])]

/-- integrity_verification section (lines 941-950). integrity_status and
notes keep the Python truthiness of Optional[bool]: only a present True
counts as verified. -/
def manifestIntegrity (r : BackupResult) : JValue :=
  JValue.obj [
    ("hash_algorithm", JValue.str "MD5"),
    ("hash_length_bits", JValue.num 128),
    ("iso_hash", optStrJ r.md5_iso),
    ("source_hash", optStrJ r.md5_raw),
    ("hashes_match", optBoolJ r.checksum_match),
    ("verification_method", JValue.str "Parallel hash calculation during creation"),
    ("integrity_status", JValue.str (match r.checksum_match with
      | some true => "verified"
      | some false => "failed"
      | none => "not_performed")),
    ("notes", if r.checksum_match = some true
      then JValue.str "ISO verified as bit-perfect copy" else JValue.null)]

def filterNoneFields (l : List (String × Option JValue)) : List (String × JValue) :=
  l.filterMap (fun kv => kv.2.map (fun v => (kv.1, v)))

/-- The details dictionary of _extract_filesystem_info (lines 1090-1107),
including the removal of None values. -/
def fsDetails (fs : FsEntry) : List (String × JValue) :=
  if fs.type = some "ISO 9660" then
    filterNoneFields [
      ("volume_identifier", fs.volume_identifier.map JValue.str),
      ("creation_date", fs.volume_creation_date.map JValue.str),
      ("publisher", fs.publisher.map JValue.str),
      ("data_preparer", fs.data_preparer.map JValue.str),
      ("logical_block_size", fs.logical_block_size.map (fun n => JValue.num (n : ℚ))),
      ("volume_space_size", fs.volume_space_size.map (fun n => JValue.num (n : ℚ)))]
  else if fs.type = some "UDF" then
    filterNoneFields [
      ("logical_volume_identifier", fs.logical_volume_identifier.map JValue.str),
      ("logical_block_size", fs.logical_block_size.map (fun n => JValue.num (n : ℚ))),
      ("implementation", fs.implementation.map JValue.str)]
  else []

/-- _extract_filesystem_info (lines 1080-1110). -/
def extract_filesystem_info (fss : List FsEntry) : JValue :=
  JValue.arr (fss.map (fun fs =>
    JValue.obj [("type", optStrJ fs.type), ("details", JValue.obj (fsDetails fs))]))

/-- Static xml_field_mappings block (lines 974-1007). -/
def xmlFieldMappings : JValue :=
  JValue.obj [
    ("note", JValue.str "This section documents which XML elements from the raw isolyzer output map to the fields above"),
    ("tool_info", JValue.obj [
      ("tool_used", JValue.str "/isolyzer/toolInfo/toolName"),
      ("tool_version", JValue.str "/isolyzer/toolInfo/toolVersion")]),
    ("status_fields", JValue.obj [
      ("analysis_successful", JValue.str "/isolyzer/image/statusInfo/success")]),
    ("test_fields", JValue.obj [
      ("contains_known_filesystem", JValue.str "/isolyzer/image/tests/containsKnownFileSystem"),
      ("size_expected_bytes", JValue.str "/isolyzer/image/tests/sizeExpected"),
      ("size_actual_bytes", JValue.str "/isolyzer/image/tests/sizeActual"),
      ("size_difference_bytes", JValue.str "/isolyzer/image/tests/sizeDifference"),
      ("size_difference_sectors", JValue.str "/isolyzer/image/tests/sizeDifferenceSectors"),
      ("size_as_expected", JValue.str "/isolyzer/image/tests/sizeAsExpected"),
      ("smaller_than_expected", JValue.str "/isolyzer/image/tests/smallerThanExpected"),
      ("valid_iso9660", JValue.str "presence of /isolyzer/image/fileSystems/fileSystem[@TYPE=\x27ISO 9660\x27]"),
      ("contains_udf", JValue.str "presence of /isolyzer/image/fileSystems/fileSystem[@TYPE=\x27UDF\x27]")]),
    ("iso9660_fields", JValue.obj [
      ("volume_identifier", JValue.str "/isolyzer/image/fileSystems/fileSystem[@TYPE=\x27ISO 9660\x27]/primaryVolumeDescriptor/volumeIdentifier"),
      ("creation_date", JValue.str "/isolyzer/image/fileSystems/fileSystem[@TYPE=\x27ISO 9660\x27]/primaryVolumeDescriptor/volumeCreationDateAndTime"),
      ("publisher", JValue.str "/isolyzer/image/fileSystems/fileSystem[@TYPE=\x27ISO 9660\x27]/primaryVolumeDescriptor/publisherIdentifier"),
      ("data_preparer", JValue.str "/isolyzer/image/fileSystems/fileSystem[@TYPE=\x27ISO 9660\x27]/primaryVolumeDescriptor/dataPreparerIdentifier"),
      ("logical_block_size", JValue.str "/isolyzer/image/fileSystems/fileSystem[@TYPE=\x27ISO 9660\x27]/primaryVolumeDescriptor/logicalBlockSize"),
      ("volume_space_size", JValue.str "/isolyzer/image/fileSystems/fileSystem[@TYPE=\x27ISO 9660\x27]/primaryVolumeDescriptor/volumeSpaceSize")]),
    ("udf_fields", JValue.obj [
      ("logical_volume_identifier", JValue.str "/isolyzer/image/fileSystems/fileSystem[@TYPE=\x27UDF\x27]/logicalVolumeDescriptor/logicalVolumeIdentifier"),
      ("logical_block_size", JValue.str "/isolyzer/image/fileSystems/fileSystem[@TYPE=\x27UDF\x27]/logicalVolumeDescriptor/logicalBlockSize"),
      ("implementation", JValue.str "/isolyzer/image/fileSystems/fileSystem[@TYPE=\x27UDF\x27]/logicalVolumeDescriptor/implementationIdentifier")])]

/-- structural_analysis section (lines 952-1008). Note that the error
string of the analysis record is exported (line 973) but its error_type
classification is not. -/
def manifestStructuralAnalysis (a : IsoAnalysis) : JValue :=
  JValue.obj [
    ("tool_used", JValue.str (a.toolName.getD "isolyzer")),
    ("tool_version", JValue.str (a.toolVersion.getD "unknown")),
    ("analysis_performed", JValue.bool (!a.skipped && a.error.isNone)),
    ("analysis_successful", JValue.bool (a.status_success.getD false)),
    ("valid_iso9660", JValue.bool (a.valid_iso9660.getD false)),
    ("contains_udf", JValue.bool (a.has_udf.getD false)),
    ("size_validation", JValue.obj [
      ("size_as_expected", JValue.bool (a.size_as_expected.getD true)),
      ("size_expected_bytes", JValue.num ((a.size_expected.getD 0 : ℤ) : ℚ)),
      ("size_actual_bytes", JValue.num ((a.size_actual.getD 0 : ℤ) : ℚ)),
      ("size_difference_bytes", JValue.num ((a.size_difference_bytes.getD 0 : ℤ) : ℚ)),
      ("size_difference_sectors", JValue.num (a.size_difference_sectors.getD 0)),
      ("smaller_than_expected", JValue.bool (a.smaller_than_expected.getD false)),
      ("contains_known_filesystem", JValue.bool (a.contains_known_filesystem.getD true)),
      ("size_expected_formatted", JValue.str (formatFixed1 (((a.size_expected.getD 0 : ℤ) : ℚ) / 1024 / 1024) ++ " MB")),
      ("size_actual_formatted", JValue.str (formatFixed1 (((a.size_actual.getD 0 : ℤ) : ℚ) / 1024 / 1024) ++ " MB")),
      ("note", if 0 < a.size_difference_bytes.getD 0
        then JValue.str "Small differences (1-2 sectors) are normal for optical media"
        else JValue.null)]),
    ("filesystems_detected", extract_filesystem_info a.filesystems),
    ("warnings", JValue.arr (a.warnings.map JValue.str)),
    ("error", optStrJ a.error),
    ("xml_field_mappings", xmlFieldMappings)]

/-- system_environment section (lines 1010-1019). -/
def manifestSystemEnvironment (plat : PlatformInfo) : JValue :=
  JValue.obj [
    ("operating_system", JValue.str plat.system),
    ("os_version", JValue.str plat.release),
    ("kernel_version", JValue.str plat.version),
    ("machine_architecture", JValue.str plat.machine),
    ("processor", JValue.str plat.processor),
    ("hostname", JValue.str plat.node),
    ("python_version", JValue.str plat.python_version),
    ("user_context", JValue.str "sudo required for raw device access")]

/-- technical_details section (lines 1021-1041). -/
def manifestTechnicalDetails (cfg : BackupConfig) (r : BackupResult) (d : DiskInfo) : JValue :=
  JValue.obj [
    ("source_device_properties", JValue.obj [
      ("device_identifier", optStrJ d.DeviceIdentifier),
      ("device_node", optStrJ d.DeviceNode),
      ("ejectable", optBoolJ d.Ejectable),
      ("removable", optBoolJ d.Removable),
      ("internal", optBoolJ d.Internal),
      ("smart_status", optStrJ d.SMARTStatus),
      ("bootable", optBoolJ d.Bootable),
      ("writable", optBoolJ d.Writable)]),
    ("backup_parameters", JValue.obj [
      ("dd_block_size", JValue.str "4MB"),
      ("read_device", JValue.str ("/dev/r" ++ cfg.disk_id)),
      ("write_destination", JValue.str r.iso_path),
      ("parallel_processing", JValue.bool true),
      ("verification_during_creation", JValue.bool true),
      ("error_handling", JValue.str "standard dd error handling")])]

/-- quality_assurance section (lines 1043-1071). The status tests keep
Python truthiness: checksum_match counts only when present and True. -/
def manifestQualityAssurance (r : BackupResult) (a : IsoAnalysis) : JValue :=
  JValue.obj [
    ("verification_levels", JValue.arr [
      JValue.obj [
        ("type", JValue.str "bit_perfect_copy"),
        ("method", JValue.str "MD5 hash comparison"),
        ("status", JValue.str (if r.checksum_match = some true then "verified" else "failed")),
        ("confidence", JValue.str (if r.checksum_match = some true then "100%" else "0%"))],
      JValue.obj [
        ("type", JValue.str "structural_integrity"),
        ("method", JValue.str "isolyzer analysis"),
        ("status", JValue.str (if (a.valid_iso9660.getD false) && (a.status_success.getD false)
          then "verified"
          else if pyTruthyStr a.error then "failed" else "not_performed")),
        ("confidence", JValue.str (if a.valid_iso9660.getD false then "high" else "unknown"))]]),
    ("recommended_verifications", JValue.arr [
      JValue.str "Mount created ISO and compare file structure",
      JValue.str "Test ISO in target environment",
      JValue.str "Verify specific files if critical data",
      JValue.str "Check isolyzer analysis for structural issues"]),
    ("backup_best_practices", JValue.arr [
      JValue.str "Store ISO in multiple locations",
      JValue.str "Create checksum file for long-term storage",
      JValue.str "Document any disc damage or read errors",
      JValue.str "Keep isolyzer analysis for format validation"]),
    ("manifest_notes", JValue.str "This manifest provides comprehensive backup documentation including both bit-level and structural verification for audit and validation purposes")]

/-- The full manifest record in schema order (lines 839-1072).
isoFileSize is stat().st_size of the ISO when it exists (line 836),
tree is the _extract_tree_summary outcome (line 824), t and uuid the
wall clock and uuid4() draw of this invocation (lines 821, 842). -/
def createManifest (cfg : BackupConfig) (r : BackupResult) (d : DiskInfo) (a : IsoAnalysis)
    (isoFileSize : Option Nat) (tree : TreeSummary) (plat : PlatformInfo)
    (t : ToolTimestamp) (uuid : String) : JValue :=
  JValue.obj [
    ("backup_metadata", manifestBackupMetadata cfg t uuid),
    ("backup_status", manifestBackupStatus cfg r isoFileSize),
    ("source_disc", manifestSourceDisc cfg d),
    ("volume_information", manifestVolumeInformation cfg r d),
    ("output_files", manifestOutputFiles cfg r isoFileSize),
    ("operations_performed", manifestOperations cfg r tree),
    ("timing_performance", manifestTiming r),
    ("integrity_verification", manifestIntegrity r),
    ("structural_analysis", manifestStructuralAnalysis a),
    ("system_environment", manifestSystemEnvironment plat),
    ("technical_details", manifestTechnicalDetails cfg r d),
    ("quality_assurance", manifestQualityAssurance r a)]

/-! ## The copy-and-hash loop (_create_and_verify_iso, lines 532-586).
Bytes are naturals below 256; a chunk is one proc.stdout.read result.
The two hashlib accumulators are modelled by the byte sequences fed to
them, which determine the hex digests through the md5 parameter. -/

structure CopyState where
  fileBytes : List Nat
  isoFed : List Nat
  rawFed : List Nat
  bytesWritten : Nat
  progressUpdates : Nat
deriving DecidableEq

def initCopyState : CopyState :=
  { fileBytes := [], isoFed := [], rawFed := [], bytesWritten := 0, progressUpdates := 0 }

/-- One iteration body (lines 549-556): write the chunk, update both
hashers with the same chunk, add its length to bytes_written, and issue
one progress update. -/
def copyStep (s : CopyState) (chunk : List Nat) : CopyState :=
  { fileBytes := s.fileBytes ++ chunk,
    isoFed := s.isoFed ++ chunk,
    rawFed := s.rawFed ++ chunk,
    bytesWritten := s.bytesWritten + chunk.length,
    progressUpdates := s.progressUpdates + 1 }

/-- The while loop (lines 544-556): successive read results are consumed
until the first empty read, which ends the stream. -/
def copyLoop : List (List Nat) → CopyState → CopyState
  | [], s => s
  | c :: cs, s => if c.isEmpty then s else copyLoop cs (copyStep s c)

/-! ## Progress display (_display_progress, lines 588-604). Only the
computation is modelled; the cursor-control writes render these values. -/

structure ProgressView where
  speed : ℚ
  remaining : ℤ
  eta : ℚ
  mb_current : ℚ
  mb_total : ℚ
  speed_mb : ℚ
  elapsed_shown : ℤ
  eta_shown : ℤ
deriving DecidableEq

/-- _display_progress computation (lines 590-604): elapsed is the float
time.time() - start_time; elapsed_shown and eta_shown are the int()
values handed to timedelta for rendering. -/
def displayProgress (current total : ℕ) (elapsed : ℚ) : ProgressView :=
  let speed := if 0 < elapsed then (current : ℚ) / elapsed else 0
  let remaining : ℤ := max 0 ((total : ℤ) - (current : ℤ))
  let eta := if 0 < speed then (remaining : ℚ) / speed else 0
  { speed := speed,
    remaining := remaining,
    eta := eta,
    mb_current := (current : ℚ) / (1024 * 1024),
    mb_total := (total : ℚ) / (1024 * 1024),
    speed_mb := speed / (1024 * 1024),
    elapsed_shown := pyTrunc elapsed,
    eta_shown := pyTrunc eta }

/-! ## The backup run (create_backup, lines 400-467) -/

/-- Output artifacts the run can create or modify, one tag per
open-for-write or mkdir site in create_backup and its callees. -/
inductive FileEffect where
  | mkdirOutputDir
  | treeFile
  | isoFile
  | isolyzerFile
  | logFile
  | manifestFile
deriving DecidableEq

/-- _confirm_overwrite (lines 499-502) combined with get_input (line 164):
the raw prompt answer is stripped, lowercased and compared with y. -/
def confirm_overwrite (response : String) : Bool :=
  pyLower (pyStrip response) == "y"

/-- _analyze_iso_structure (lines 1112-1190), given what the isolyzer
subprocess did. The successful branch also saves the raw XML; the
CalledProcessError branch writes a minimal XML file; the
FileNotFoundError and generic branches write nothing. -/
def analyzeIsoStructure : IsolyzerRun → IsoAnalysis × List FileEffect
  | IsolyzerRun.ok parsed => (parsed, [FileEffect.isolyzerFile])
  | IsolyzerRun.calledProcessError msg =>
      ({ error := some msg, error_type := some "execution_failed" }, [FileEffect.isolyzerFile])
  | IsolyzerRun.fileNotFound =>
      ({ error := some "isolyzer not installed", error_type := some "not_found" }, [])
  | IsolyzerRun.otherError msg =>
      ({ error := some msg, error_type := some "parsing_failed" }, [])

/-- The dry-run analysis record of line 438. -/
def dryRunAnalysis : IsoAnalysis := { skipped := true, reason := some "dry run" }

/-- Everything the environment answers during one run: the effective
uid, the diskutil plist (none when diskutil failed or answered an empty
dict, line 413), whether the destination ISO already exists, the raw
overwrite-prompt answer, the dd chunk stream and return code, the
elapsed copy time, the isolyzer invocation outcome, the post-run stat
of the ISO file, the tree summary, wall clock, uuid4 draw and platform
answers. Collaborator processes are modelled as responsive, as the
design scopes device handling out to collaborators. -/
structure Env where
  euid : Nat
  diskInfo : Option DiskInfo
  outputExists : Bool
  overwriteResponse : String
  chunks : List (List Nat)
  ddReturncode : ℤ
  creationTime : ℚ
  isolyzer : IsolyzerRun
  isoFileSizeAfter : Option Nat
  treeSummary : TreeSummary
  now : ToolTimestamp
  uuid : String
  platform : PlatformInfo

/-- What one run produced: the BackupResult main receives, the manifest
written by _create_manifest when reached, and the ordered output-file
effects. -/
structure RunResult where
  result : BackupResult
  manifest : Option JValue
  wroteFiles : List FileEffect

/-- create_backup (lines 400-467). An Except.error models the uncaught
RuntimeError raised when dd exits nonzero (line 561), which aborts the
run before any result is built. All early returns happen before the
mkdir of line 426, so they carry an empty effect list. -/
def create_backup (md5 : List Nat → String) (cfg : BackupConfig) (env : Env) :
    Except String RunResult :=
  if env.euid ≠ 0 then
    Except.ok { result := { success := false, iso_path := cfg.output_path, disk_size := 0,
                            error_message := some "Not running as root" },
                manifest := none, wroteFiles := [] }
  else
    match env.diskInfo with
    | none =>
        Except.ok { result := { success := false, iso_path := cfg.output_path, disk_size := 0,
                                error_message := some ("Could not get disk info for " ++ cfg.disk_id) },
                    manifest := none, wroteFiles := [] }
    | some d =>
        let disk_size := d.TotalSize.getD 0
        if env.outputExists && !(confirm_overwrite env.overwriteResponse) then
          Except.ok { result := { success := false, iso_path := cfg.output_path,
                                  disk_size := disk_size,
                                  error_message := some "Aborted to avoid overwrite" },
                      manifest := none, wroteFiles := [] }
        else
          if cfg.dry_run then
            let r : BackupResult :=
              { success := true, iso_path := cfg.output_path, disk_size := disk_size,
                md5_iso := some "dry_run_hash", md5_raw := some "dry_run_hash",
                creation_time := 0, verification_time := 0 }
            Except.ok
              { result := r,
                manifest := some (createManifest cfg r d dryRunAnalysis env.isoFileSizeAfter
                  env.treeSummary env.platform env.now env.uuid),
                wroteFiles := [FileEffect.mkdirOutputDir, FileEffect.treeFile,
                  FileEffect.logFile, FileEffect.manifestFile] }
          else
            if env.ddReturncode ≠ 0 then
              Except.error "dd failed"
            else
              let s := copyLoop env.chunks initCopyState
              let r : BackupResult :=
                { success := true, iso_path := cfg.output_path, disk_size := disk_size,
                  md5_iso := some (md5 s.isoFed), md5_raw := some (md5 s.rawFed),
                  creation_time := env.creationTime, verification_time := 0 }
              let pa := analyzeIsoStructure env.isolyzer
              Except.ok
                { result := r,
                  manifest := some (createManifest cfg r d pa.1 env.isoFileSizeAfter
                    env.treeSummary env.platform env.now env.uuid),
                  wroteFiles := [FileEffect.mkdirOutputDir, FileEffect.treeFile,
                    FileEffect.isoFile] ++ pa.2 ++ [FileEffect.logFile, FileEffect.manifestFile] }

/-- The exit-code mapping of main (lines 1400-1410). -/
def mainExitCode (r : BackupResult) : Nat :=
  if r.success then (if r.checksum_match = some false then 2 else 0) else 1

/-- Exit status of the whole process: an uncaught exception makes the
interpreter exit 1, otherwise main applies its mapping. -/
def exitCodeOfRun : Except String RunResult → Nat
  | Except.error _ => 1
  | Except.ok rr => mainExitCode rr.result

def getResult : Except String RunResult → Option BackupResult
  | Except.error _ => none
  | Except.ok rr => some rr.result

def runManifest : Except String RunResult → Option JValue
  | Except.error _ => none
  | Except.ok rr => rr.manifest

def wroteFilesOf : Except String RunResult → List FileEffect
  | Except.error _ => []
  | Except.ok rr => rr.wroteFiles

/-- Field of a named section of the manifest a run wrote, when any. -/
def manifestField (sec k : String) (o : Except String RunResult) : Option JValue :=
  (runManifest o).bind (sectionField sec k)

/-! ## Claim-side helpers: masking designated manifest fields, so that
equality up to those fields is plain equality of the masked trees, and
the spec formulas for the progress computation. -/

/-- Mask only the generation timestamp field (created), the exception the
idempotence claim allows. -/
def scrubCreated (m : JValue) : JValue :=
  JValue.mapField "backup_metadata" (JValue.setField "created" JValue.null) m

/-- Mask the three per-invocation fields of backup_metadata: created,
the run_id that embeds the same timestamp, and the random uuid. -/
def scrubVolatile (m : JValue) : JValue :=
  JValue.mapField "backup_metadata"
    (fun v => JValue.setField "created" JValue.null
      (JValue.setField "uuid" JValue.null
        (JValue.setField "run_id" JValue.null v))) m

/-- Mask the two manifest fields that state whether verification was
performed: backup_status.verification_performed and
operations_performed.verification.performed. -/
def scrubVerifFlags (m : JValue) : JValue :=
  JValue.mapField "operations_performed"
    (JValue.mapField "verification" (JValue.setField "performed" JValue.null))
    (JValue.mapField "backup_status"
      (JValue.setField "verification_performed" JValue.null) m)

/-- Apply scrubVerifFlags to the manifest a run wrote, keeping the rest
of the outcome unchanged. -/
def scrubRunVerif : Except String RunResult → Except String RunResult
  | Except.error e => Except.error e
  | Except.ok rr => Except.ok { rr with manifest := rr.manifest.map scrubVerifFlags }

/-- Spec formula (claim C5): throughput is bytes done over elapsed
seconds when elapsed is positive, else 0. -/
def specThroughput (done : ℕ) (elapsed : ℚ) : ℚ :=
  if 0 < elapsed then (done : ℚ) / elapsed else 0

/-- Spec formula (claim C5): remaining-time estimate is
max(0, total - done) / throughput when throughput is positive, else 0. -/
def specRemainingEstimate (done total : ℕ) (elapsed : ℚ) : ℚ :=
  if 0 < specThroughput done elapsed
  then max 0 ((total : ℚ) - (done : ℚ)) / specThroughput done elapsed
  else 0

/-! ## Concrete example inputs used by witnesses and counterexamples. -/

def cfgEx : BackupConfig :=
  { disk_id := "disk2", volume_name := "VOL", filename := "backup",
    operator := "OP", output_dir := "/out", dry_run := false, no_verification := false }

def diskEx : DiskInfo := { TotalSize := some 8 }

def platEx : PlatformInfo :=
  { system := "Darwin", release := "23.0", version := "k", machine := "arm64",
    processor := "arm", node := "host", python_version := "3.11" }

def tsEx : ToolTimestamp := { compact := "20260101T000000", iso := "2026-01-01T00:00:00" }

def md5Ex : List Nat → String := fun bytes => "h" ++ toString bytes.length

def envEx : Env :=
  { euid := 0, diskInfo := some diskEx, outputExists := false, overwriteResponse := "",
    chunks := [[1, 2], [3]], ddReturncode := 0, creationTime := 5,
    isolyzer := IsolyzerRun.fileNotFound, isoFileSizeAfter := some 3,
    treeSummary := TreeSummary.empty, now := tsEx, uuid := "u-1", platform := platEx }

def resultEx : BackupResult :=
  { success := true, iso_path := "/out/backup.iso", disk_size := 8,
    md5_iso := some "aa", md5_raw := some "aa", creation_time := 5 }

def analysisNotFoundEx : IsoAnalysis :=
  { error := some "isolyzer not installed", error_type := some "not_found" }

def cfgDryEx : BackupConfig := { cfgEx with dry_run := true }

def envYEx : Env := { envEx with outputExists := true, overwriteResponse := "Y" }

def envDeclineEx : Env := { envEx with outputExists := true, overwriteResponse := "n" }

/-! ## Claim conclusions stated as named propositions, so that each
witness can restate the instantiated conclusion compactly. -/

/-- The whole C5 property at given inputs: the code computes exactly the
spec formulas, and every displayed quantity is nonnegative. -/
def progressSpecHolds (current total : ℕ) (elapsed : ℚ) : Prop :=
  (displayProgress current total elapsed).speed = specThroughput current elapsed ∧
  (displayProgress current total elapsed).eta = specRemainingEstimate current total elapsed ∧
  0 ≤ (displayProgress current total elapsed).speed ∧
  0 ≤ (displayProgress current total elapsed).remaining ∧
  0 ≤ (displayProgress current total elapsed).eta ∧
  0 ≤ (displayProgress current total elapsed).speed_mb ∧
  0 ≤ (displayProgress current total elapsed).elapsed_shown ∧
  0 ≤ (displayProgress current total elapsed).eta_shown

/-- Conclusion of the amended C7 claim: the run returns the
overwrite-declined failure before any copying, writes or creates
nothing, and exits 1. -/
def overwriteDeclinedConclusion (md5 : List Nat → String) (cfg : BackupConfig)
    (env : Env) (d : DiskInfo) : Prop :=
  create_backup md5 cfg env = Except.ok
    { result := { success := false, iso_path := cfg.output_path,
                  disk_size := d.TotalSize.getD 0,
                  error_message := some "Aborted to avoid overwrite" },
      manifest := none, wroteFiles := [] } ∧
  exitCodeOfRun (create_backup md5 cfg env) = 1

/-- Conclusion of the amended C6 claim: the adapter returns the
schema-valid not_found error record, the manifest marks the analysis as
not performed and carries the error string (but has no error_type key),
and the run still exits 0. -/
def validatorMissingConclusion (md5 : List Nat → String) (cfg : BackupConfig)
    (env : Env) : Prop :=
  (analyzeIsoStructure IsolyzerRun.fileNotFound).1.error_type = some "not_found" ∧
  (analyzeIsoStructure IsolyzerRun.fileNotFound).1.error = some "isolyzer not installed" ∧
  (getResult (create_backup md5 cfg env)).map BackupResult.success = some true ∧
  exitCodeOfRun (create_backup md5 cfg env) = 0 ∧
  manifestField "structural_analysis" "analysis_performed" (create_backup md5 cfg env)
    = some (JValue.bool false) ∧
  manifestField "structural_analysis" "error" (create_backup md5 cfg env)
    = some (JValue.str "isolyzer not installed") ∧
  manifestField "structural_analysis" "error_type" (create_backup md5 cfg env) = none

/-- Conclusion of C9: the two runs that differ only in the
no-verification flag produce the same BackupResult (hence the same
digests), the same exit status, and manifests equal once the two
verification-performed fields are masked. -/
def noVerificationConclusion (md5 : List Nat → String) (cfg : BackupConfig)
    (env : Env) : Prop :=
  getResult (create_backup md5 { cfg with no_verification := true } env)
    = getResult (create_backup md5 { cfg with no_verification := false } env) ∧
  exitCodeOfRun (create_backup md5 { cfg with no_verification := true } env)
    = exitCodeOfRun (create_backup md5 { cfg with no_verification := false } env) ∧
  scrubRunVerif (create_backup md5 { cfg with no_verification := true } env)
    = scrubRunVerif (create_backup md5 { cfg with no_verification := false } env)

/-- Conclusion of C10: a dry run stores the placeholder digest on both
sides, checksum_match is true, the run exits 0, the manifest reports
hashes_match true and integrity_status verified, and the ISO file is
never written. -/
def dryRunConclusion (md5 : List Nat → String) (cfg : BackupConfig) (env : Env) : Prop :=
  (getResult (create_backup md5 cfg env)).map (fun r => r.md5_iso)
    = some (some "dry_run_hash") ∧
  (getResult (create_backup md5 cfg env)).map (fun r => r.md5_raw)
    = some (some "dry_run_hash") ∧
  (getResult (create_backup md5 cfg env)).map BackupResult.checksum_match
    = some (some true) ∧
  exitCodeOfRun (create_backup md5 cfg env) = 0 ∧
  manifestField "integrity_verification" "hashes_match" (create_backup md5 cfg env)
    = some (JValue.bool true) ∧
  manifestField "integrity_verification" "integrity_status" (create_backup md5 cfg env)
    = some (JValue.str "verified") ∧
  FileEffect.isoFile ∉ wroteFilesOf (create_backup md5 cfg env)

/-! # Theorems -/

/-- Rat.floor agrees with the floor of the FloorRing instance. -/
theorem rfloor_eq (q : ℚ) : Rat.floor q = ⌊q⌋ := by
  rw [Rat.floor_def', Rat.floor_def]

/-- Round-half-even at an integer value is that integer. -/
theorem roundHalfEven_int (n : ℤ) : roundHalfEven ((n : ℤ) : ℚ) = n := by
  unfold roundHalfEven
  rw [rfloor_eq, Int.floor_intCast]
  norm_num

/-- Evaluation rule for formatFixed once the scaled value is known. -/
theorem formatFixed_eval (prec : Nat) (q : ℚ) (c : ℤ)
    (h : q * (((10:ℕ) ^ prec : ℕ) : ℚ) = (c : ℚ)) :
    formatFixed prec q = formatFixedInt prec c := by
  unfold formatFixed
  rw [h, roundHalfEven_int]

/-- Evaluation rule for the minutes component. -/
theorem durMinutes_eval (s : ℚ) (n : ℤ) (hnn : ¬ s < 0) (h : ⌊s⌋ = n) :
    durMinutes s = Int.fdiv n 60 := by
  unfold durMinutes pyTrunc
  rw [if_neg hnn, rfloor_eq, h]

/-- Evaluation rule for the rounded seconds component. -/
theorem durSeconds_eval (s : ℚ) (m c : ℤ)
    (h1 : ⌊s / 60⌋ = m) (h2 : (s - 60 * ((m:ℤ):ℚ)) * 100 = ((c:ℤ):ℚ)) :
    durSeconds s = ((c:ℤ):ℚ) / 100 := by
  unfold durSeconds qmod round2
  rw [rfloor_eq, h1, h2, roundHalfEven_int]

/-- C8: boundary cases of the duration formatter (_format_duration,
lines 1192-1201): 0 gives the string 0 seconds; 59.99 gives minutes 0 and
seconds 59.99; 60 gives 1 minute and 0 seconds; 3661 gives 61 minutes and
1 second, so minutes do not roll over into hours. -/
theorem format_duration_boundaries :
    formatDuration 0 = "0 seconds" ∧
    durMinutes (5999/100) = 0 ∧ durSeconds (5999/100) = 5999/100 ∧
    formatDuration (5999/100) = "59.99 seconds" ∧
    durMinutes 60 = 1 ∧ durSeconds 60 = 0 ∧
    formatDuration 60 = "1 minutes, 0.00 seconds" ∧
    durMinutes 3661 = 61 ∧ durSeconds 3661 = 1 ∧
    formatDuration 3661 = "61 minutes, 1.00 seconds" := by
  have hm59 : durMinutes (5999/100) = 0 := by
    rw [durMinutes_eval (5999/100) 59 (by norm_num) (by rw [Int.floor_eq_iff]; norm_num)]
    decide
  have hs59 : durSeconds (5999/100) = ((5999:ℤ):ℚ)/100 :=
    durSeconds_eval (5999/100) 0 5999 (by rw [Int.floor_eq_iff]; norm_num) (by push_cast; norm_num)
  have hm60 : durMinutes 60 = 1 := by
    rw [durMinutes_eval 60 60 (by norm_num) (by norm_num)]
    decide
  have hs60 : durSeconds 60 = ((0:ℤ):ℚ)/100 :=
    durSeconds_eval 60 1 0 (by rw [Int.floor_eq_iff]; norm_num) (by push_cast; norm_num)
  have hm3661 : durMinutes 3661 = 61 := by
    rw [durMinutes_eval 3661 3661 (by norm_num) (by norm_num)]
    decide
  have hs3661 : durSeconds 3661 = ((100:ℤ):ℚ)/100 :=
    durSeconds_eval 3661 61 100 (by rw [Int.floor_eq_iff]; norm_num) (by push_cast; norm_num)
  refine ⟨by decide, hm59, by rw [hs59]; norm_num, ?_, hm60, by rw [hs60]; norm_num, ?_,
    hm3661, by rw [hs3661]; norm_num, ?_⟩
  · unfold formatDuration
    rw [if_neg (by norm_num : ¬ (5999/100:ℚ) = 0), hm59, hs59, if_neg (by decide : ¬ (0:ℤ) < 0)]
    unfold formatFixed2
    rw [formatFixed_eval 2 (((5999:ℤ):ℚ)/100) 5999 (by push_cast; norm_num)]
    decide
  · unfold formatDuration
    rw [if_neg (by norm_num : ¬ (60:ℚ) = 0), hm60, hs60, if_pos (by decide : (0:ℤ) < 1)]
    unfold formatFixed2
    rw [formatFixed_eval 2 (((0:ℤ):ℚ)/100) 0 (by push_cast; norm_num)]
    decide
  · unfold formatDuration
    rw [if_neg (by norm_num : ¬ (3661:ℚ) = 0), hm3661, hs3661, if_pos (by decide : (0:ℤ) < 61)]
    unfold formatFixed2
    rw [formatFixed_eval 2 (((100:ℤ):ℚ)/100) 100 (by push_cast; norm_num)]
    decide

/-- The copy loop keeps the two digest feeds in lockstep. -/
theorem copyLoop_feeds (chunks : List (List Nat)) :
    ∀ s : CopyState, s.isoFed = s.rawFed →
      (copyLoop chunks s).isoFed = (copyLoop chunks s).rawFed := by
  induction chunks with
  | nil => intro s h; exact h
  | cons c cs ih =>
    intro s h
    unfold copyLoop
    by_cases hc : c.isEmpty
    · simpa [hc] using h
    · simpa [hc] using ih (copyStep s c) (by simp [copyStep, h])

/-- C1: on every run of the copy loop, the ISO-file hasher and the
raw-disk hasher are fed the identical byte sequence (lines 549-552 feed
both hashlib accumulators the same chunk), so the two hex digests agree
for every possible digest function, in particular for MD5. -/
theorem copy_digests_always_equal (md5 : List Nat → String) (chunks : List (List Nat)) :
    (copyLoop chunks initCopyState).isoFed = (copyLoop chunks initCopyState).rawFed ∧
    md5 (copyLoop chunks initCopyState).isoFed = md5 (copyLoop chunks initCopyState).rawFed := by
  have h := copyLoop_feeds chunks initCopyState rfl
  exact ⟨h, congrArg md5 h⟩

/-- bytes_written accumulates exactly the lengths of the consumed
chunks, those before the first empty read. -/
theorem copyLoop_bytes (chunks : List (List Nat)) :
    ∀ s : CopyState, (copyLoop chunks s).bytesWritten =
      s.bytesWritten + ((chunks.takeWhile (fun c => !c.isEmpty)).map List.length).sum := by
  induction chunks with
  | nil => intro s; simp [copyLoop]
  | cons c cs ih =>
    intro s
    unfold copyLoop
    by_cases hc : c.isEmpty
    · simp [hc]
    · rw [if_neg (by simp [hc]), ih (copyStep s c)]
      simp only [copyStep, List.takeWhile_cons, hc, Bool.not_false, if_true,
        List.map_cons, List.sum_cons]
      omega

/-- A stream with no empty chunk is consumed in full by takeWhile. -/
theorem takeWhile_all_nonempty (chunks : List (List Nat))
    (h : ∀ c ∈ chunks, c.isEmpty = false) :
    chunks.takeWhile (fun c => !c.isEmpty) = chunks := by
  induction chunks with
  | nil => rfl
  | cons c cs ih =>
    simp only [List.takeWhile_cons, h c (by simp), Bool.not_false, if_true]
    exact congrArg (c :: ·) (ih (fun x hx => h x (by simp [hx])))

/-- C4: at loop exit bytes_written equals the sum of the lengths of all
blocks read and written (the prefix before the first empty read), and
when the well-formed source delivers the declared total size in nonempty
blocks, bytes_written equals that declared size. -/
theorem copy_bytes_written_total (chunks : List (List Nat)) (total : ℕ) :
    (copyLoop chunks initCopyState).bytesWritten
      = ((chunks.takeWhile (fun c => !c.isEmpty)).map List.length).sum ∧
    (((chunks.map List.length).sum = total ∧ ∀ c ∈ chunks, c.isEmpty = false) →
      (copyLoop chunks initCopyState).bytesWritten = total) := by
  constructor
  · simpa [initCopyState] using copyLoop_bytes chunks initCopyState
  · rintro ⟨hsum, hne⟩
    rw [copyLoop_bytes chunks initCopyState, takeWhile_all_nonempty chunks hne]
    simpa [initCopyState] using hsum

/-- Witness for C4 at the concrete stream [[1,2],[3]] with declared
size 3. -/
theorem copy_bytes_written_total_witness :
    ((([[1,2],[3]] : List (List Nat)).map List.length).sum = 3 ∧
      ∀ c ∈ ([[1,2],[3]] : List (List Nat)), c.isEmpty = false) ∧
    (copyLoop [[1,2],[3]] initCopyState).bytesWritten = 3 :=
  ⟨⟨by decide, by decide⟩, (copy_bytes_written_total [[1,2],[3]] 3).2 ⟨by decide, by decide⟩⟩

/-- C2: the exit-status contract of main (lines 1400-1410): 0 exactly
when the result is successful and the checksum comparison is not a
definite mismatch, 2 exactly when successful with a definite mismatch,
1 exactly when the success flag is false; and the fatal not-root and
disk-info-failure paths of create_backup produce exit status 1. -/
theorem exit_status_contract (r : BackupResult) :
    (mainExitCode r = 0 ↔ (r.success = true ∧ r.checksum_match ≠ some false)) ∧
    (mainExitCode r = 2 ↔ (r.success = true ∧ r.checksum_match = some false)) ∧
    (mainExitCode r = 1 ↔ r.success = false) ∧
    (∀ (md5 : List Nat → String) (cfg : BackupConfig) (env : Env),
      exitCodeOfRun (create_backup md5 cfg { env with euid := 1 }) = 1) ∧
    (∀ (md5 : List Nat → String) (cfg : BackupConfig) (env : Env),
      exitCodeOfRun (create_backup md5 cfg { env with euid := 0, diskInfo := none }) = 1) := by
  refine ⟨?_, ?_, ?_, fun md5 cfg env => rfl, fun md5 cfg env => rfl⟩
  · unfold mainExitCode
    rcases hs : r.success
    · simp [hs]
    · by_cases hc : r.checksum_match = some false
      · simp [hs, hc]
      · simp [hs, hc]
  · unfold mainExitCode
    rcases hs : r.success
    · simp [hs]
    · by_cases hc : r.checksum_match = some false
      · simp [hs, hc]
      · simp [hs, hc]
  · unfold mainExitCode
    rcases hs : r.success
    · simp [hs]
    · by_cases hc : r.checksum_match = some false
      · simp [hs, hc]
      · simp [hs, hc]

/-- pyTrunc of a nonnegative rational is nonnegative. -/
theorem pyTrunc_nonneg (q : ℚ) (h : 0 ≤ q) : 0 ≤ pyTrunc q := by
  unfold pyTrunc
  rw [if_neg (not_lt.mpr h), rfloor_eq]
  exact Int.floor_nonneg.mpr h

/-- C5: _display_progress (lines 588-604) computes throughput as
bytes done over elapsed when elapsed is positive else 0, the remaining
estimate as max(0, total - done) over throughput when throughput is
positive else 0, and with nonnegative elapsed input no displayed
quantity is negative. -/
theorem progress_view_spec (current total : ℕ) (elapsed : ℚ) (h : 0 ≤ elapsed) :
    progressSpecHolds current total elapsed := by
  have hmax : ((max 0 ((total : ℤ) - (current : ℤ)) : ℤ) : ℚ)
      = max 0 ((total : ℚ) - (current : ℚ)) := by
    push_cast
    rfl
  have hspeed : (displayProgress current total elapsed).speed
      = specThroughput current elapsed := rfl
  have hsnn : 0 ≤ (displayProgress current total elapsed).speed := by
    rw [hspeed]
    unfold specThroughput
    split
    · exact div_nonneg (Nat.cast_nonneg current) (le_of_lt (by assumption))
    · exact le_refl 0
  have hetaspec : (displayProgress current total elapsed).eta
      = specRemainingEstimate current total elapsed := by
    show (if 0 < specThroughput current elapsed
        then ((max 0 ((total : ℤ) - (current : ℤ)) : ℤ) : ℚ) / specThroughput current elapsed
        else 0)
      = specRemainingEstimate current total elapsed
    unfold specRemainingEstimate
    rw [hmax]
  have hetann : 0 ≤ (displayProgress current total elapsed).eta := by
    rw [hetaspec]
    unfold specRemainingEstimate
    split
    · refine div_nonneg ?_ (le_of_lt (by assumption))
      exact le_max_left 0 _
    · exact le_refl 0
  refine ⟨hspeed, hetaspec, hsnn, le_max_left 0 _, hetann, ?_, ?_, ?_⟩
  · exact div_nonneg hsnn (by norm_num)
  · exact pyTrunc_nonneg elapsed h
  · exact pyTrunc_nonneg _ hetann

/-- Witness for C5 at current 4, total 10, elapsed 2. -/
theorem progress_view_spec_witness : (0:ℚ) ≤ 2 ∧ progressSpecHolds 4 10 2 :=
  ⟨by norm_num, progress_view_spec 4 10 2 (by norm_num)⟩

/-- C3 counterexample: two invocations of the manifest builder on
identical configuration, transfer result, disk metadata and analysis
result, in the same wall-clock second, still differ after masking the
generation timestamp field, because the uuid field is a fresh random
draw per invocation (line 842). -/
theorem manifest_not_uuid_stable :
    scrubCreated (createManifest cfgEx resultEx diskEx analysisNotFoundEx (some 3)
      TreeSummary.empty platEx tsEx "11111111") ≠
    scrubCreated (createManifest cfgEx resultEx diskEx analysisNotFoundEx (some 3)
      TreeSummary.empty platEx tsEx "22222222") := by
  intro h
  have h1 : sectionField "backup_metadata" "uuid"
      (scrubCreated (createManifest cfgEx resultEx diskEx analysisNotFoundEx (some 3)
        TreeSummary.empty platEx tsEx "11111111")) = some (JValue.str "11111111") := rfl
  have h2 : sectionField "backup_metadata" "uuid"
      (scrubCreated (createManifest cfgEx resultEx diskEx analysisNotFoundEx (some 3)
        TreeSummary.empty platEx tsEx "22222222")) = some (JValue.str "22222222") := rfl
  rw [h, h2] at h1
  simp at h1

/-- C3 amended: for fixed configuration, transfer result, disk metadata,
structural-analysis result, filesystem state and platform answers, two
invocations of the manifest builder agree on every field except the
backup_metadata fields created (the generation timestamp), run_id (which
embeds that timestamp) and uuid (a fresh random UUID per invocation). -/
theorem manifest_idempotent_modulo_volatile (cfg : BackupConfig) (r : BackupResult)
    (d : DiskInfo) (a : IsoAnalysis) (fsz : Option Nat) (ts : TreeSummary)
    (plat : PlatformInfo) (t₁ t₂ : ToolTimestamp) (u₁ u₂ : String) :
    scrubVolatile (createManifest cfg r d a fsz ts plat t₁ u₁) =
    scrubVolatile (createManifest cfg r d a fsz ts plat t₂ u₂) := by
  rfl

/-- C7 counterexample: the answer Y capitalized is not the string y, yet
the run does not abort, because _confirm_overwrite lowercases the
stripped answer before comparing (line 502); so declining is not
equivalent to answering anything other than the lowercase y. -/
theorem overwrite_uppercase_accepted :
    envYEx.outputExists = true ∧ envYEx.overwriteResponse ≠ "y" ∧
    (getResult (create_backup md5Ex cfgDryEx envYEx)).map BackupResult.success
      = some true := by
  refine ⟨rfl, by decide, ?_⟩
  rfl

/-- C7 amended: if the destination ISO exists and the operator declines
the prompt (any answer whose stripped, lowercased form is not y), the run
aborts before any copying with the overwrite-declined failure result,
no output file is created or modified, and the process exits 1. -/
theorem overwrite_declined_aborts (md5 : List Nat → String) (cfg : BackupConfig)
    (env : Env) (d : DiskInfo)
    (hE : env.euid = 0) (hD : env.diskInfo = some d)
    (hex : env.outputExists = true)
    (hresp : confirm_overwrite env.overwriteResponse = false) :
    overwriteDeclinedConclusion md5 cfg env d := by
  have hrun : create_backup md5 cfg env = Except.ok
      { result := { success := false, iso_path := cfg.output_path,
                    disk_size := d.TotalSize.getD 0,
                    error_message := some "Aborted to avoid overwrite" },
        manifest := none, wroteFiles := [] } := by
    unfold create_backup
    rw [hE, hD, hex, hresp]
    simp
  exact ⟨hrun, by rw [hrun]; rfl⟩

/-- Witness for C7 at the concrete declining answer n. -/
theorem overwrite_declined_aborts_witness :
    (envDeclineEx.euid = 0 ∧ envDeclineEx.diskInfo = some diskEx ∧
      envDeclineEx.outputExists = true ∧
      confirm_overwrite envDeclineEx.overwriteResponse = false) ∧
    overwriteDeclinedConclusion md5Ex cfgEx envDeclineEx diskEx :=
  ⟨⟨rfl, rfl, rfl, by decide⟩,
   overwrite_declined_aborts md5Ex cfgEx envDeclineEx diskEx rfl rfl rfl (by decide)⟩

/-- C6 counterexample: in the validator-absent run the structural
analysis section of the manifest does mark the analysis as not
performed, but it holds no error_type key at all (lines 952-1007 export
only the error string, line 973), refuting the claim that the section
has error_type not_found. -/
theorem manifest_error_type_absent :
    manifestField "structural_analysis" "analysis_performed"
      (create_backup md5Ex cfgEx envEx) = some (JValue.bool false) ∧
    manifestField "structural_analysis" "error_type"
      (create_backup md5Ex cfgEx envEx) = none := by
  exact ⟨rfl, rfl⟩

/-- C6 amended: if the validator executable is absent, the adapter
returns a schema-valid error record with classification not_found (never
null), the manifest structural-analysis section has
analysis_performed false and carries the error string isolyzer not
installed (the error_type classification itself is not exported to the
manifest), and the run still exits 0 when the copy succeeded. -/
theorem validator_missing_recovered (md5 : List Nat → String) (cfg : BackupConfig)
    (env : Env) (d : DiskInfo)
    (hE : env.euid = 0) (hD : env.diskInfo = some d)
    (hov : (env.outputExists && !(confirm_overwrite env.overwriteResponse)) = false)
    (hdry : cfg.dry_run = false) (hdd : env.ddReturncode = 0)
    (hiso : env.isolyzer = IsolyzerRun.fileNotFound) :
    validatorMissingConclusion md5 cfg env := by
  have hfe : (copyLoop env.chunks initCopyState).isoFed
      = (copyLoop env.chunks initCopyState).rawFed :=
    copyLoop_feeds env.chunks initCopyState rfl
  have hrun : create_backup md5 cfg env = Except.ok
      { result :=
          { success := true, iso_path := cfg.output_path, disk_size := d.TotalSize.getD 0,
            md5_iso := some (md5 (copyLoop env.chunks initCopyState).isoFed),
            md5_raw := some (md5 (copyLoop env.chunks initCopyState).isoFed),
            creation_time := env.creationTime, verification_time := 0 },
        manifest := some (createManifest cfg
          { success := true, iso_path := cfg.output_path, disk_size := d.TotalSize.getD 0,
            md5_iso := some (md5 (copyLoop env.chunks initCopyState).isoFed),
            md5_raw := some (md5 (copyLoop env.chunks initCopyState).isoFed),
            creation_time := env.creationTime, verification_time := 0 } d
          { error := some "isolyzer not installed", error_type := some "not_found" }
          env.isoFileSizeAfter env.treeSummary env.platform env.now env.uuid),
        wroteFiles := [FileEffect.mkdirOutputDir, FileEffect.treeFile, FileEffect.isoFile,
          FileEffect.logFile, FileEffect.manifestFile] } := by
    unfold create_backup
    rw [hE, hD, hov, hdry, hdd, hiso]
    simp [analyzeIsoStructure]
    rw [hfe]
    exact ⟨rfl, rfl⟩
  unfold validatorMissingConclusion
  rw [hrun]
  refine ⟨rfl, rfl, rfl, ?_, ?_, ?_, ?_⟩
  · by_cases hx : md5 (copyLoop env.chunks initCopyState).isoFed = ""
    · simp [exitCodeOfRun, mainExitCode, BackupResult.checksum_match, hx]
    · simp [exitCodeOfRun, mainExitCode, BackupResult.checksum_match, hx]
  · simp [manifestField, runManifest, sectionField, createManifest, JValue.getField,
      lookupField, manifestStructuralAnalysis]
  · simp [manifestField, runManifest, sectionField, createManifest, JValue.getField,
      lookupField, manifestStructuralAnalysis, optStrJ]
  · simp [manifestField, runManifest, sectionField, createManifest, JValue.getField,
      lookupField, manifestStructuralAnalysis]

/-- Witness for C6 at the concrete environment whose isolyzer call
raises FileNotFoundError. -/
theorem validator_missing_recovered_witness :
    (envEx.euid = 0 ∧ envEx.diskInfo = some diskEx ∧
      (envEx.outputExists && !(confirm_overwrite envEx.overwriteResponse)) = false ∧
      cfgEx.dry_run = false ∧ envEx.ddReturncode = 0 ∧
      envEx.isolyzer = IsolyzerRun.fileNotFound) ∧
    validatorMissingConclusion md5Ex cfgEx envEx :=
  ⟨⟨rfl, rfl, rfl, rfl, rfl, rfl⟩,
   validator_missing_recovered md5Ex cfgEx envEx diskEx rfl rfl rfl rfl rfl rfl⟩

/-- C9: in any non-dry run, flipping only the no-verification flag
changes neither the BackupResult (so both digests are still computed and
compared exactly as before, and a mismatch would still exit 2) nor the
exit status; the two manifests agree once the two fields that describe
whether verification was performed are masked. -/
theorem no_verification_noninterference (md5 : List Nat → String) (cfg : BackupConfig)
    (env : Env) (hdry : cfg.dry_run = false) :
    noVerificationConclusion md5 cfg env := by
  obtain ⟨id, vn, fn, op, od, dr, nv⟩ := cfg
  have hdr : dr = false := hdry
  subst hdr
  unfold noVerificationConclusion create_backup
  dsimp only
  by_cases h1 : env.euid ≠ 0
  · simp only [if_pos h1]
    exact ⟨rfl, rfl, rfl⟩
  · simp only [if_neg h1]
    cases hD : env.diskInfo with
    | none =>
      exact ⟨rfl, rfl, rfl⟩
    | some d =>
      by_cases h2 : (env.outputExists && !(confirm_overwrite env.overwriteResponse)) = true
      · simp only [if_pos h2]
        exact ⟨rfl, rfl, rfl⟩
      · simp only [if_neg h2]
        by_cases h3 : env.ddReturncode ≠ 0
        · simp only [if_pos h3]
          exact ⟨rfl, rfl, rfl⟩
        · simp only [if_neg h3]
          exact ⟨rfl, rfl, rfl⟩

/-- Witness for C9 at a concrete non-dry configuration. -/
theorem no_verification_noninterference_witness :
    cfgEx.dry_run = false ∧ noVerificationConclusion md5Ex cfgEx envEx :=
  ⟨rfl, no_verification_noninterference md5Ex cfgEx envEx rfl⟩

/-- C10: every dry run stores the placeholder string dry_run_hash as
both digests (line 437), so checksum_match is true rather than skipped,
the run exits 0, and the manifest integrity section reports hashes_match
true and integrity_status verified although the ISO file was never
written. -/
theorem dry_run_reports_verified (md5 : List Nat → String) (cfg : BackupConfig)
    (env : Env) (d : DiskInfo)
    (hE : env.euid = 0) (hD : env.diskInfo = some d)
    (hov : (env.outputExists && !(confirm_overwrite env.overwriteResponse)) = false)
    (hdry : cfg.dry_run = true) :
    dryRunConclusion md5 cfg env := by
  have hrun : create_backup md5 cfg env = Except.ok
      { result :=
          { success := true, iso_path := cfg.output_path, disk_size := d.TotalSize.getD 0,
            md5_iso := some "dry_run_hash", md5_raw := some "dry_run_hash",
            creation_time := 0, verification_time := 0 },
        manifest := some (createManifest cfg
          { success := true, iso_path := cfg.output_path, disk_size := d.TotalSize.getD 0,
            md5_iso := some "dry_run_hash", md5_raw := some "dry_run_hash",
            creation_time := 0, verification_time := 0 } d dryRunAnalysis
          env.isoFileSizeAfter env.treeSummary env.platform env.now env.uuid),
        wroteFiles := [FileEffect.mkdirOutputDir, FileEffect.treeFile,
          FileEffect.logFile, FileEffect.manifestFile] } := by
    unfold create_backup
    rw [hE, hD, hov, hdry]
    simp
  unfold dryRunConclusion
  rw [hrun]
  refine ⟨rfl, rfl, ?_, ?_, ?_, ?_, by simp [wroteFilesOf]⟩
  · simp [getResult, BackupResult.checksum_match]
  · simp [exitCodeOfRun, mainExitCode, BackupResult.checksum_match]
  · simp [manifestField, runManifest, sectionField, createManifest, JValue.getField,
      lookupField, manifestIntegrity, optBoolJ, BackupResult.checksum_match]
  · simp [manifestField, runManifest, sectionField, createManifest, JValue.getField,
      lookupField, manifestIntegrity, optBoolJ, BackupResult.checksum_match]

/-- Witness for C10 at the concrete dry-run configuration. -/
theorem dry_run_reports_verified_witness :
    (envEx.euid = 0 ∧ envEx.diskInfo = some diskEx ∧
      (envEx.outputExists && !(confirm_overwrite envEx.overwriteResponse)) = false ∧
      cfgDryEx.dry_run = true) ∧
    dryRunConclusion md5Ex cfgDryEx envEx :=
  ⟨⟨rfl, rfl, rfl, rfl⟩,
   dry_run_reports_verified md5Ex cfgDryEx envEx diskEx rfl rfl rfl rfl⟩
